import Mathlib

/-!
Verification development for the neutron-ha-tool of the
cookbook-openstack-network repository.

The repository ships the tool's test suite
(`files/default/test-neutron-ha-tool.py`); the tool itself
(`neutron-ha-tool.py`) is not part of the sources available here, so the
core operations are modelled from the specification (each such definition
carries a doc comment starting with `Modelled from the spec:`).  The fake
control-plane state and the concrete scenarios are embedded from the test
suite, which is available.
-/

namespace HaTool

/-- An L3 agent as listed by the control plane: identifier, liveness flag,
administrative-enabled flag and host name (test suite also records an
`agent_type` string for each agent). -/
structure Agent where
  id : String
  agent_type : String
  alive : Bool
  admin_state_up : Bool
  host : String
deriving DecidableEq, Repr

/-- The control-plane state, embedded from the test suite's `FakeNeutron`:
the listed agents and the router identifiers bound to each agent
(`routers_by_agent`), kept as an association list from agent id to the
list of bound router ids. -/
structure Neutron where
  agents : List Agent
  routers_by_agent : List (String × List String)
deriving DecidableEq, Repr

/-- Routers currently bound to an agent (`list_routers_on_l3_agent` of the
fake client): the association-list entry for the agent id, empty when the
agent has no entry. -/
def list_routers_on_l3_agent (n : Neutron) (agent_id : String) : List String :=
  match n.routers_by_agent.find? (fun e => e.1 = agent_id) with
  | some e => e.2
  | none => []

/-- Update the binding entry of one agent with `f`, inserting a fresh entry
when the agent has none yet (the fake client's `defaultdict(set)`). -/
def updateBinding (n : Neutron) (agent_id : String) (f : List String → List String) :
    Neutron :=
  if n.routers_by_agent.any (fun e => e.1 = agent_id) then
    { n with routers_by_agent :=
        n.routers_by_agent.map (fun e => if e.1 = agent_id then (e.1, f e.2) else e) }
  else
    { n with routers_by_agent := n.routers_by_agent ++ [(agent_id, f [])] }

/-- `remove_router_from_l3_agent` of the fake client: drop the router id
from the agent's binding. -/
def remove_router_from_l3_agent (n : Neutron) (agent_id router_id : String) : Neutron :=
  updateBinding n agent_id (fun rs => rs.filter (fun r => r ≠ router_id))

/-- `add_router_to_l3_agent` of the fake client: add the router id to the
agent's binding (a set in the fake, so adding an already-present id is a
no-op). -/
def add_router_to_l3_agent (n : Neutron) (agent_id router_id : String) : Neutron :=
  updateBinding n agent_id
    (fun rs => if rs.any (fun r => r = router_id) then rs else rs ++ [router_id])

/-- Modelled from the spec: `NullRouterFilter` is the identity over router
identifier sequences (`neutron-ha-tool.py` is not among the sources). -/
def nullRouterFilter (router_ids : List String) : List String :=
  router_ids

/-- Modelled from the spec: `WhitelistRouterFilter(allowed).filter_routers`
returns only the input identifiers present in `allowed`, preserving input
order (`neutron-ha-tool.py` is not among the sources). -/
def filter_routers (whitelist : List String) (router_ids : List String) : List String :=
  router_ids.filter (fun r => whitelist.any (fun w => w = r))

/-- A picker, as consumed by the migration workflow: from the candidate
agents handed to `set_agents`, `pick` selects one; `none` models the
raised indexing error of a pick over an empty candidate set. -/
def PickFn : Type := List Agent → Option Agent

/-- Modelled from the spec: `RandomAgentPicker.pick` returns a uniformly
random element of the candidate set; the random draw is modelled by an
externally supplied `seed`, reduced modulo the number of candidates
(`neutron-ha-tool.py` is not among the sources). -/
def randomAgentPicker (seed : Nat) : PickFn :=
  fun agents => agents.get? (seed % agents.length)

/-- An agent is a migration destination when it is alive and
administratively enabled. -/
def aliveAndEnabled (a : Agent) : Bool :=
  a.alive && a.admin_state_up

/-- Modelled from the spec: move one router from a source agent to the
agent chosen by the picker over the candidate set.  Consulting an absent
picker, or a pick over an empty candidate set, is a programming-contract
violation that propagates (`none`); `now` is merely forwarded to the
control-plane add call and does not change the binding outcome
(`neutron-ha-tool.py` is not among the sources). -/
def moveRouter (candidates : List Agent) (picker : Option PickFn)
    (src_agent_id router_id : String) (_now : Bool) (n : Neutron) : Option Neutron :=
  match picker with
  | none => none
  | some pf =>
    match pf candidates with
    | none => none
    | some dest =>
      some (add_router_to_l3_agent
        (remove_router_from_l3_agent n src_agent_id router_id) dest.id router_id)

/-- Modelled from the spec: migrate every filtered router of one dead
agent, counting per-router failures without aborting
(`neutron-ha-tool.py` is not among the sources). -/
def migrateRouters (candidates : List Agent) (picker : Option PickFn)
    (src_agent_id : String) (now : Bool) :
    List String → Nat → Neutron → Option (Nat × Neutron)
  | [], errors, n => some (errors, n)
  | r :: rest, errors, n =>
    match moveRouter candidates picker src_agent_id r now n with
    | none => none
    | some n => migrateRouters candidates picker src_agent_id now rest errors n

/-- Modelled from the spec: the per-dead-agent loop of
`migrate-from-dead-agents` (`neutron-ha-tool.py` is not among the
sources). -/
def migrateDeadAgents (candidates : List Agent) (picker : Option PickFn)
    (router_filter : List String → List String) (now : Bool) :
    List Agent → Nat → Neutron → Option (Nat × Neutron)
  | [], errors, n => some (errors, n)
  | d :: rest, errors, n =>
    match migrateRouters candidates picker d.id now
        (router_filter (list_routers_on_l3_agent n d.id)) errors n with
    | none => none
    | some (errors, n) => migrateDeadAgents candidates picker router_filter now rest errors n

/-- Modelled from the spec: `l3_agent_migrate(client, picker, filter, now)`.
List all agents and partition into alive-and-enabled versus dead/disabled;
with no dead/disabled agents return zero errors at once (the picker is
never consulted, so the testable property "zero dead agents gives zero
errors" holds for every run); with dead agents but no alive-and-enabled
agent report one aggregate error and stop; otherwise, for each dead agent
list its routers, filter them, and for each survivor pick a destination
among the alive agents and move the router.  `none` models a propagated
exception; `some (errors, n)` the returned error count and the resulting
control-plane state (`neutron-ha-tool.py` is not among the sources). -/
def l3_agent_migrate (n : Neutron) (picker : Option PickFn)
    (router_filter : List String → List String) (now : Bool) :
    Option (Nat × Neutron) :=
  let alive := n.agents.filter aliveAndEnabled
  let dead := n.agents.filter (fun a => !aliveAndEnabled a)
  if dead.isEmpty then some (0, n)
  else if alive.isEmpty then some (1, n)
  else migrateDeadAgents alive picker router_filter now dead 0 n

/-- Modelled from the spec: `l3_agent_evacuate(client, host, picker,
filter)`.  Resolve the agent bound to `host`; with no match, log and
return zero errors.  The remaining agents (all listed agents excluding the
source) are the candidate destinations; if none remain report one error;
otherwise move each filtered router of the source onto a picked candidate
(`neutron-ha-tool.py` is not among the sources). -/
def l3_agent_evacuate (n : Neutron) (host : String) (picker : Option PickFn)
    (router_filter : List String → List String) :
    Option (Nat × Neutron) :=
  match n.agents.find? (fun a => a.host = host) with
  | none => some (0, n)
  | some src =>
    let candidates := n.agents.filter (fun a => a.id ≠ src.id)
    if candidates.isEmpty then some (1, n)
    else migrateRouters candidates picker src.id false
      (router_filter (list_routers_on_l3_agent n src.id)) 0 n

/-- Modelled from the spec: the fixed age threshold of the least-busy
picker's router-count cache, in seconds — a short interval, tens of
seconds (`neutron-ha-tool.py` is not among the sources; the exact value is
irrelevant to the claims, which only use that it is far below one day). -/
def ROUTER_CACHE_MAX_AGE_SECONDS : Nat := 60

/-- Modelled from the spec: the state of `LeastBusyAgentPicker` — the
candidate agents of the latest `set_agents` call, the per-agent router
counts in input order (`router_count_per_agent_id`), and the cache
creation timestamp in seconds (`neutron-ha-tool.py` is not among the
sources). -/
structure LeastBusyAgentPicker where
  agents : List Agent
  router_count_per_agent_id : List (String × Nat)
  cache_created_at : Nat
deriving DecidableEq, Repr

/-- Count, via the control-plane client, the routers currently bound to
each candidate agent, in input order. -/
def computeRouterCounts (n : Neutron) (agents : List Agent) : List (String × Nat) :=
  agents.map (fun a => (a.id, (list_routers_on_l3_agent n a.id).length))

/-- Modelled from the spec: `LeastBusyAgentPicker.set_agents` records the
candidates and immediately queries the router count of every one of them,
stamping the cache with the current time (`neutron-ha-tool.py` is not
among the sources). -/
def set_agents (n : Neutron) (nowTime : Nat) (agents : List Agent) :
    LeastBusyAgentPicker :=
  { agents := agents
    router_count_per_agent_id := computeRouterCounts n agents
    cache_created_at := nowTime }

/-- The entry of least count, scanning left to right and keeping the
earlier entry on ties (Python's `min` over the recorded counts). -/
def minCountEntry : String × Nat → List (String × Nat) → String × Nat
  | e, [] => e
  | e, f :: rest => if f.2 < e.2 then minCountEntry f rest else minCountEntry e rest

/-- Increment the recorded count of the given agent id by one, leaving
every other entry unchanged. -/
def bumpCount : List (String × Nat) → String → List (String × Nat)
  | [], _ => []
  | e :: rest, target =>
    if e.1 = target then (e.1, e.2 + 1) :: rest else e :: bumpCount rest target

/-- Modelled from the spec: the cache-freshness re-validation of
`LeastBusyAgentPicker.pick` — when the cache age exceeds the fixed
threshold, the per-agent counts are recomputed from the control plane and
the cache timestamp is renewed (`neutron-ha-tool.py` is not among the
sources). -/
def refreshIfExpired (n : Neutron) (nowTime : Nat) (p : LeastBusyAgentPicker) :
    LeastBusyAgentPicker :=
  if ROUTER_CACHE_MAX_AGE_SECONDS < nowTime - p.cache_created_at then
    { p with router_count_per_agent_id := computeRouterCounts n p.agents
             cache_created_at := nowTime }
  else p

/-- Modelled from the spec: `LeastBusyAgentPicker.pick`.  After the cache
re-validation, the agent of minimum recorded count is selected (ties
broken by first encountered in input order) and its counter is
incremented by one immediately.  `none` models the indexing error raised
over an empty candidate set.  The pick returns the chosen agent's
identifier together with the updated picker state
(`neutron-ha-tool.py` is not among the sources). -/
def pick (n : Neutron) (nowTime : Nat) (p : LeastBusyAgentPicker) :
    Option (String × LeastBusyAgentPicker) :=
  let q := refreshIfExpired n nowTime p
  match q.router_count_per_agent_id with
  | [] => none
  | e :: rest =>
    let chosen := minCountEntry e rest
    some (chosen.1,
      { q with router_count_per_agent_id :=
          bumpCount q.router_count_per_agent_id chosen.1 })

/-! ### Remote namespace cleanup -/

/-- The one failure mode of the remote-shell transport the cleanup cares
about: a connection-level or command-level timeout. -/
inductive SshError where
  | timeout
deriving DecidableEq, Repr

/-- One remote command as issued: the command string, the pseudo-terminal
allocation flag and the per-command timeout in seconds. -/
structure IssuedCmd where
  cmd : String
  get_pty : Bool
  timeoutSecs : Nat
deriving DecidableEq, Repr

/-- Modelled from the spec: the fixed per-command timeout of the cleanup's
remote commands (`neutron-ha-tool.py` is not among the sources; the claims
only use that one fixed timeout accompanies every command). -/
def SSH_TIMEOUT_SECONDS : Nat := 10

/-- A remote-shell session: whether opening the connection times out, and
an oracle giving, for the i-th executed command, either its stdout lines
or a command-level timeout.  This embeds the shape of the mocked
`SSHClient` of the test suite. -/
structure SshSession where
  connectTimesOut : Bool
  exec : Nat → String → Except SshError (List String)

/-- Strip trailing whitespace (the `\r\n` terminators of the remote
command output lines). -/
def stripLine (s : String) : String :=
  ⟨(s.data.reverse.dropWhile (fun c => c = '\r' ∨ c = '\n' ∨ c = ' ')).reverse⟩

/-- Modelled from the spec: the namespace name addressed by the cleanup is
the conventional prefix `qrouter-` concatenated with the router
identifier (`neutron-ha-tool.py` is not among the sources). -/
def nsName (router_id : String) : String :=
  "qrouter-" ++ router_id

/-- The namespace-listing command, issued with a pseudo-terminal and the
fixed timeout. -/
def listNsCmd : IssuedCmd :=
  ⟨"ip netns list", true, SSH_TIMEOUT_SECONDS⟩

/-- The pid-listing command for a namespace, issued with a pseudo-terminal
and the fixed timeout. -/
def pidsCmd (ns : String) : IssuedCmd :=
  ⟨"ip netns pids " ++ ns, true, SSH_TIMEOUT_SECONDS⟩

/-- The kill command for one process id, issued with a pseudo-terminal and
the fixed timeout. -/
def killCmd (p : String) : IssuedCmd :=
  ⟨"kill " ++ p, true, SSH_TIMEOUT_SECONDS⟩

/-- The namespace-delete command, issued with a pseudo-terminal and the
fixed timeout. -/
def deleteNsCmd (ns : String) : IssuedCmd :=
  ⟨"ip netns delete " ++ ns, true, SSH_TIMEOUT_SECONDS⟩

/-- Issue one kill command per discovered process id, in listing order,
aborting on the first timeout; returns the issued commands, the next
command index and the uncaught error, if any. -/
def killPids (s : SshSession) : Nat → List String →
    List IssuedCmd × Nat × Option SshError
  | i, [] => ([], i, none)
  | i, p :: rest =>
    match s.exec i (killCmd p).cmd with
    | .error e => ([killCmd p], i + 1, some e)
    | .ok _ =>
      (killCmd p :: (killPids s (i + 1) rest).1,
        (killPids s (i + 1) rest).2.1, (killPids s (i + 1) rest).2.2)

/-- Modelled from the spec: the body of
`RemoteRouterNsCleanup.delete_router_namespace`, before the surrounding
timeout handler.  Connect (a connect timeout raises with no command
issued); list the namespaces and stop if `qrouter-<router id>` is absent
from the (stripped) output; otherwise list the pids inside the namespace,
kill each one in listing order, re-list the pids to reconfirm, and delete
the namespace.  Returns the remote commands issued in order, and
`some .timeout` when a timeout was raised at some step
(`neutron-ha-tool.py` is not among the sources). -/
def cleanupBody (s : SshSession) (router_id : String) :
    List IssuedCmd × Option SshError :=
  if s.connectTimesOut then ([], some SshError.timeout)
  else
    match s.exec 0 listNsCmd.cmd with
    | .error e => ([listNsCmd], some e)
    | .ok nsLines =>
      if (nsLines.map stripLine).any (fun l => l = nsName router_id) then
        match s.exec 1 (pidsCmd (nsName router_id)).cmd with
        | .error e => ([listNsCmd, pidsCmd (nsName router_id)], some e)
        | .ok pidLines =>
          match killPids s 2 ((pidLines.map stripLine).filter (fun p => p ≠ "")) with
          | (kills, _, some e) =>
            (listNsCmd :: pidsCmd (nsName router_id) :: kills, some e)
          | (kills, j, none) =>
            match s.exec j (pidsCmd (nsName router_id)).cmd with
            | .error e =>
              (listNsCmd :: pidsCmd (nsName router_id) :: kills
                ++ [pidsCmd (nsName router_id)], some e)
            | .ok _ =>
              match s.exec (j + 1) (deleteNsCmd (nsName router_id)).cmd with
              | .error e =>
                (listNsCmd :: pidsCmd (nsName router_id) :: kills
                  ++ [pidsCmd (nsName router_id), deleteNsCmd (nsName router_id)], some e)
              | .ok _ =>
                (listNsCmd :: pidsCmd (nsName router_id) :: kills
                  ++ [pidsCmd (nsName router_id), deleteNsCmd (nsName router_id)], none)
      else ([listNsCmd], none)

/-- Modelled from the spec: `RemoteRouterNsCleanup.delete_router_namespace`
runs the cleanup body and swallows any timeout entirely — cleanup is
best-effort, so the call always returns normally with the commands that
were issued, and no exception escapes (`neutron-ha-tool.py` is not among
the sources). -/
def delete_router_namespace (s : SshSession) (router_id : String) :
    List IssuedCmd :=
  (cleanupBody s router_id).1

/-! ### Fixtures, embedded from the test suite's `setup_fake_neutron` -/

/-- The i-th live agent of `setup_fake_neutron`: alive, enabled, host
`live-agent-<i>-host`. -/
def liveAgent (i : Nat) : Agent :=
  { id := "live-agent-" ++ toString i
    agent_type := "L3 agent"
    alive := true
    admin_state_up := true
    host := "live-agent-" ++ toString i ++ "-host" }

/-- The i-th dead agent of `setup_fake_neutron`: not alive, disabled, host
`dead-agent-<i>-host`. -/
def deadAgent (i : Nat) : Agent :=
  { id := "dead-agent-" ++ toString i
    agent_type := "L3 agent"
    alive := false
    admin_state_up := false
    host := "dead-agent-" ++ toString i ++ "-host" }

/-- `setup_fake_neutron(live_agents=2)`: two live agents and no routers. -/
def twoLiveFixture : Neutron :=
  { agents := [liveAgent 0, liveAgent 1], routers_by_agent := [] }

/-- `setup_fake_neutron(dead_agents=2)`: two dead agents and no routers. -/
def twoDeadFixture : Neutron :=
  { agents := [deadAgent 0, deadAgent 1], routers_by_agent := [] }

/-- `setup_fake_neutron(live_agents=1, dead_agents=1)` with `router-1`
added to the dead agent. -/
def migrateOneFixture : Neutron :=
  { agents := [liveAgent 0, deadAgent 0]
    routers_by_agent := [("dead-agent-0", ["router-1"])] }

/-- `setup_fake_neutron(live_agents=2)` with router `router` added to
`live-agent-0`. -/
def evacuateFixture : Neutron :=
  { agents := [liveAgent 0, liveAgent 1]
    routers_by_agent := [("live-agent-0", ["router"])] }

/-- A bare `FakeNeutron()`: no agents, no routers. -/
def emptyNeutron : Neutron :=
  { agents := [], routers_by_agent := [] }

/-- `setup_fake_neutron(live_agents=2)` with `router-2` and `router-3`
added to `live-agent-0` after the picker was created. -/
def busyFixture : Neutron :=
  { agents := [liveAgent 0, liveAgent 1]
    routers_by_agent := [("live-agent-0", ["router-2", "router-3"])] }

/-- The control-plane state after migrating `router-1` off the dead agent
onto `live-agent-0`. -/
def migrateOneMoved : Neutron :=
  { agents := [liveAgent 0, deadAgent 0]
    routers_by_agent := [("dead-agent-0", []), ("live-agent-0", ["router-1"])] }

/-- The control-plane state after evacuating `router` from `live-agent-0`
onto `live-agent-1`. -/
def evacuateMoved : Neutron :=
  { agents := [liveAgent 0, liveAgent 1]
    routers_by_agent := [("live-agent-0", []), ("live-agent-1", ["router"])] }


/-- The mocked session of `test_namespace_deleted`: the namespace listing
contains `qrouter-routerid1`, the first pid listing returns pids 1234 and
1235, every later pid listing is empty, every command succeeds. -/
def nsPresentSession : SshSession :=
  { connectTimesOut := false
    exec := fun i cmd =>
      if cmd = "ip netns list" then
        .ok ["qrouter-routerid1\r\n", "qrouter-otherid\r\n"]
      else if cmd = "ip netns pids qrouter-routerid1" ∧ i = 1 then
        .ok ["1234\r\n", "1235\r\n"]
      else .ok [] }

/-- The mocked session of `test_namespace_does_not_exist`: the namespace
listing lacks `qrouter-routerid1`; every command succeeds. -/
def nsAbsentSession : SshSession :=
  { connectTimesOut := false
    exec := fun _ cmd =>
      if cmd = "ip netns list" then .ok ["qrouter-otherid\r\n"] else .ok [] }

/-- The mocked session of `test_ssh_command_timeout`: every executed
command raises a timeout. -/
def execTimeoutSession : SshSession :=
  { connectTimesOut := false
    exec := fun _ _ => .error SshError.timeout }

/-- A session whose connection attempt itself times out. -/
def connectTimeoutSession : SshSession :=
  { connectTimesOut := true
    exec := fun _ _ => .ok [] }

/-- A random pick over a single candidate returns that candidate, for
every seed. -/
theorem randomAgentPicker_singleton (seed : Nat) (a : Agent) :
    randomAgentPicker seed [a] = some a := by
  simp [randomAgentPicker, Nat.mod_one]

/-- C1: with exactly one alive-and-enabled agent and one dead agent
holding `router-1`, `l3_agent_migrate` with a random picker, the null
filter and `now=True` returns error count 0, and afterwards `router-1` is
bound to the live agent and no longer to the dead one — for every random
seed. -/
theorem l3_agent_migrate_moves_router (seed : Nat) :
    l3_agent_migrate migrateOneFixture (some (randomAgentPicker seed)) nullRouterFilter true
      = some (0, migrateOneMoved)
    ∧ list_routers_on_l3_agent migrateOneMoved "live-agent-0" = ["router-1"]
    ∧ list_routers_on_l3_agent migrateOneMoved "dead-agent-0" = [] := by
  refine ⟨?_, by decide, by decide⟩
  have h1 : migrateOneFixture.agents.filter aliveAndEnabled = [liveAgent 0] := by decide
  have h2 : migrateOneFixture.agents.filter (fun a => !aliveAndEnabled a) = [deadAgent 0] := by
    decide
  simp only [l3_agent_migrate, h1, h2]
  rw [if_neg (by decide), if_neg (by decide)]
  simp only [migrateDeadAgents, migrateRouters, moveRouter, nullRouterFilter,
    randomAgentPicker_singleton]
  decide

/-- C3: evacuating the host of an agent holding one router, with two live
agents present, returns error count 0 and moves the router to the other
agent (for every random seed); and evacuating a host when no agents exist
at all returns error count 0 with the state unchanged and no picker
consulted. -/
theorem l3_agent_evacuate_moves_router (seed : Nat) :
    (l3_agent_evacuate evacuateFixture "live-agent-0-host"
        (some (randomAgentPicker seed)) nullRouterFilter
        = some (0, evacuateMoved)
      ∧ list_routers_on_l3_agent evacuateMoved "live-agent-1" = ["router"]
      ∧ list_routers_on_l3_agent evacuateMoved "live-agent-0" = [])
    ∧ l3_agent_evacuate emptyNeutron "host1" none nullRouterFilter
        = some (0, emptyNeutron) := by
  refine ⟨⟨?_, by decide, by decide⟩, by decide⟩
  have h1 : evacuateFixture.agents.find? (fun a => a.host = "live-agent-0-host")
      = some (liveAgent 0) := by decide
  simp only [l3_agent_evacuate, h1]
  have h2 : evacuateFixture.agents.filter (fun a => a.id ≠ (liveAgent 0).id)
      = [liveAgent 1] := by decide
  simp only [h2]
  rw [if_neg (by decide)]
  simp only [migrateRouters, moveRouter, nullRouterFilter, randomAgentPicker_singleton,
    list_routers_on_l3_agent]
  decide

/-- C4: whenever no alive-and-enabled agent exists and at least one
dead/disabled agent does, `l3_agent_migrate` returns error count exactly 1
with the state unchanged, for any picker (a missing picker included) —
the picker is never consulted. -/
theorem l3_agent_migrate_no_live_agents (n : Neutron) (picker : Option PickFn)
    (router_filter : List String → List String) (now : Bool)
    (halive : n.agents.filter aliveAndEnabled = [])
    (hdead : (n.agents.filter (fun a => !aliveAndEnabled a)).isEmpty = false) :
    l3_agent_migrate n picker router_filter now = some (1, n) := by
  simp [l3_agent_migrate, halive, hdead]

/-- Witness for C4: the two-dead-agents fixture with a missing picker. -/
theorem l3_agent_migrate_no_live_agents_witness :
    (twoDeadFixture.agents.filter aliveAndEnabled = []
      ∧ (twoDeadFixture.agents.filter (fun a => !aliveAndEnabled a)).isEmpty = false)
    ∧ l3_agent_migrate twoDeadFixture none nullRouterFilter false
        = some (1, twoDeadFixture) :=
  ⟨⟨by decide, by decide⟩,
    l3_agent_migrate_no_live_agents twoDeadFixture none nullRouterFilter false
      (by decide) (by decide)⟩

/-- C5: whenever no dead/disabled agent exists, `l3_agent_migrate` returns
error count 0 and leaves the bindings unchanged, for any picker (a missing
picker included) — the picker is never consulted, so no exception is
raised. -/
theorem l3_agent_migrate_no_dead_agents (n : Neutron) (picker : Option PickFn)
    (router_filter : List String → List String) (now : Bool)
    (hdead : (n.agents.filter (fun a => !aliveAndEnabled a)).isEmpty = true) :
    l3_agent_migrate n picker router_filter now = some (0, n) := by
  simp [l3_agent_migrate, hdead]

/-- Witness for C5: the two-live-agents fixture with a missing picker. -/
theorem l3_agent_migrate_no_dead_agents_witness :
    (twoLiveFixture.agents.filter (fun a => !aliveAndEnabled a)).isEmpty = true
    ∧ l3_agent_migrate twoLiveFixture none nullRouterFilter false
        = some (0, twoLiveFixture) :=
  ⟨by decide,
    l3_agent_migrate_no_dead_agents twoLiveFixture none nullRouterFilter false (by decide)⟩

/-- The boolean whitelist test agrees with list membership. -/
theorem any_eq_mem (whitelist : List String) (r : String) :
    (whitelist.any (fun w => w = r)) = decide (r ∈ whitelist) := by
  induction whitelist with
  | nil => simp
  | cons w ws ih =>
    rw [List.any_cons, ih]
    by_cases h : r = w <;> simp [List.mem_cons, h, eq_comm]

/-- C9: `WhitelistRouterFilter(allowed).filter_routers` returns exactly
the subsequence of the input identifiers that are present in `allowed`,
preserving input order: it equals the membership filter, is a sublist of
the input, and its members are exactly the inputs lying in the whitelist;
in particular the empty whitelist maps the two-router input to `[]`, and
whitelist `["router-id-1"]` maps `["router-id-1", "router-id-2"]` to
exactly `["router-id-1"]`. -/
theorem filter_routers_whitelist (whitelist router_ids : List String) :
    filter_routers whitelist router_ids = router_ids.filter (fun r => r ∈ whitelist)
    ∧ (filter_routers whitelist router_ids).Sublist router_ids
    ∧ (∀ r, r ∈ filter_routers whitelist router_ids ↔ r ∈ router_ids ∧ r ∈ whitelist)
    ∧ filter_routers [] ["router-id-1", "router-id-2"] = []
    ∧ filter_routers ["router-id-1"] ["router-id-1", "router-id-2"] = ["router-id-1"] := by
  have heq : filter_routers whitelist router_ids
      = router_ids.filter (fun r => r ∈ whitelist) := by
    unfold filter_routers
    exact List.filter_congr (fun r _ => any_eq_mem whitelist r)
  refine ⟨heq, ?_, ?_, by decide, by decide⟩
  · rw [heq]; exact List.filter_sublist router_ids
  · intro r
    rw [heq]
    simp [List.mem_filter]

/-- The least-count entry is one of the scanned entries. -/
theorem minCountEntry_mem (rest : List (String × Nat)) :
    ∀ e, minCountEntry e rest ∈ e :: rest := by
  induction rest with
  | nil => intro e; simp [minCountEntry]
  | cons f t ih =>
    intro e
    rw [minCountEntry]
    by_cases h : f.2 < e.2
    · rw [if_pos h]
      rcases List.mem_cons.mp (ih f) with h1 | h1
      · simp [h1]
      · simp [List.mem_cons, Or.inr (Or.inr h1)]
    · rw [if_neg h]
      rcases List.mem_cons.mp (ih e) with h1 | h1
      · simp [h1]
      · simp [List.mem_cons, Or.inr (Or.inr h1)]

/-- The least-count entry is bounded by the head's count. -/
theorem minCountEntry_le_head (rest : List (String × Nat)) :
    ∀ e, (minCountEntry e rest).2 ≤ e.2 := by
  induction rest with
  | nil => intro e; simp [minCountEntry]
  | cons f t ih =>
    intro e
    rw [minCountEntry]
    by_cases h : f.2 < e.2
    · rw [if_pos h]
      exact le_trans (ih f) (le_of_lt h)
    · rw [if_neg h]
      exact ih e

/-- The least-count entry is bounded by every scanned tail entry. -/
theorem minCountEntry_le_rest (rest : List (String × Nat)) :
    ∀ e f, f ∈ rest → (minCountEntry e rest).2 ≤ f.2 := by
  induction rest with
  | nil => intro e f hf; simp at hf
  | cons g t ih =>
    intro e f hf
    rw [minCountEntry]
    rcases List.mem_cons.mp hf with h1 | h1
    · by_cases h : g.2 < e.2
      · rw [if_pos h, h1]
        exact minCountEntry_le_head t g
      · rw [if_neg h, h1]
        exact le_trans (minCountEntry_le_head t e) (le_of_not_lt h)
    · by_cases h : g.2 < e.2
      · rw [if_pos h]
        exact ih g f h1
      · rw [if_neg h]
        exact ih e f h1

/-- Ties are broken towards the front: the least-count entry is the first
entry whose count is at most the minimum. -/
theorem minCountEntry_first (rest : List (String × Nat)) :
    ∀ e, (e :: rest).find? (fun f => f.2 ≤ (minCountEntry e rest).2)
      = some (minCountEntry e rest) := by
  induction rest with
  | nil =>
    intro e
    rw [minCountEntry]
    exact List.find?_cons_of_pos _ (by simp)
  | cons f t ih =>
    intro e
    rw [minCountEntry]
    by_cases h : f.2 < e.2
    · rw [if_pos h]
      have hm : (minCountEntry f t).2 ≤ f.2 := minCountEntry_le_head t f
      rw [List.find?_cons_of_neg _ (by simp; omega)]
      exact ih f
    · rw [if_neg h]
      have hm : (minCountEntry e t).2 ≤ e.2 := minCountEntry_le_head t e
      by_cases he : e.2 ≤ (minCountEntry e t).2
      · have h1 := ih e
        rw [List.find?_cons_of_pos _ (by simpa using he)] at h1
        rw [List.find?_cons_of_pos _ (by simpa using he)]
        exact h1
      · have h1 := ih e
        rw [List.find?_cons_of_neg _ (by simpa using he)] at h1
        rw [List.find?_cons_of_neg _ (by simpa using he),
          List.find?_cons_of_neg _ (by simp; omega)]
        exact h1

/-- Over distinct agent ids, bumping the first matching counter is the
pointwise bump of the matching entry. -/
theorem bumpCount_eq_map (target : String) :
    ∀ l : List (String × Nat), (l.map Prod.fst).Nodup →
      bumpCount l target
        = l.map (fun f => if f.1 = target then (f.1, f.2 + 1) else f) := by
  intro l
  induction l with
  | nil => intro _; rfl
  | cons e t ih =>
    intro hnd
    rw [List.map_cons, List.nodup_cons] at hnd
    rw [bumpCount, List.map_cons]
    by_cases he : e.1 = target
    · rw [if_pos he, if_pos he]
      have hall : ∀ g ∈ t,
          (fun f => if f.1 = target then (f.1, f.2 + 1) else f) g = id g := by
        intro g hg
        have : g.1 ≠ target := by
          intro hgt
          exact hnd.1 (by rw [← he] at hgt; exact hgt ▸ List.mem_map_of_mem Prod.fst hg)
        simp [this]
      rw [List.map_congr_left hall, List.map_id]
    · rw [if_neg he, if_neg he, ih hnd.2]

/-- C7: on a fresh cache with distinct agent ids,
`LeastBusyAgentPicker.pick` returns the agent of minimum recorded count —
the first such agent in input order — and the updated state increments the
chosen agent's counter by exactly one while every other counter, the
candidate agents and the cache timestamp are unchanged. -/
theorem pick_selects_least_busy (n : Neutron) (nowTime : Nat)
    (p : LeastBusyAgentPicker) (e : String × Nat) (rest : List (String × Nat))
    (hfresh : nowTime - p.cache_created_at ≤ ROUTER_CACHE_MAX_AGE_SECONDS)
    (hcounts : p.router_count_per_agent_id = e :: rest)
    (hnodup : (p.router_count_per_agent_id.map Prod.fst).Nodup) :
    ∃ m : String × Nat, ∃ q : LeastBusyAgentPicker,
      pick n nowTime p = some (m.1, q)
      ∧ m ∈ p.router_count_per_agent_id
      ∧ (∀ f ∈ p.router_count_per_agent_id, m.2 ≤ f.2)
      ∧ p.router_count_per_agent_id.find? (fun f => f.2 ≤ m.2) = some m
      ∧ q.router_count_per_agent_id
          = p.router_count_per_agent_id.map
              (fun f => if f.1 = m.1 then (f.1, f.2 + 1) else f)
      ∧ q.agents = p.agents ∧ q.cache_created_at = p.cache_created_at := by
  have hq : refreshIfExpired n nowTime p = p := by
    rw [refreshIfExpired, if_neg (not_lt.mpr hfresh)]
  refine ⟨minCountEntry e rest,
    { p with router_count_per_agent_id :=
        bumpCount p.router_count_per_agent_id (minCountEntry e rest).1 },
    ?_, ?_, ?_, ?_, ?_, rfl, rfl⟩
  · simp only [pick, hq, hcounts]
  · rw [hcounts]; exact minCountEntry_mem rest e
  · intro f hf
    rw [hcounts] at hf
    rcases List.mem_cons.mp hf with h1 | h1
    · rw [h1]; exact minCountEntry_le_head rest e
    · exact minCountEntry_le_rest rest e f h1
  · rw [hcounts]; exact minCountEntry_first rest e
  · rw [hcounts]
    exact bumpCount_eq_map (minCountEntry e rest).1 (e :: rest) (hcounts ▸ hnodup)

/-- Witness for C7: the picker of the test scenario — two live agents,
one router on `live-agent-0` — picks `live-agent-1`. -/
theorem pick_selects_least_busy_witness :
    ((0 : Nat) - (set_agents evacuateFixture 0 [liveAgent 0, liveAgent 1]).cache_created_at
        ≤ ROUTER_CACHE_MAX_AGE_SECONDS
      ∧ (set_agents evacuateFixture 0 [liveAgent 0, liveAgent 1]).router_count_per_agent_id
          = ("live-agent-0", 1) :: [("live-agent-1", 0)]
      ∧ ((set_agents evacuateFixture 0
          [liveAgent 0, liveAgent 1]).router_count_per_agent_id.map Prod.fst).Nodup)
    ∧ (∃ m : String × Nat, ∃ q : LeastBusyAgentPicker,
        pick evacuateFixture 0 (set_agents evacuateFixture 0 [liveAgent 0, liveAgent 1])
          = some (m.1, q)
        ∧ m ∈ (set_agents evacuateFixture 0
            [liveAgent 0, liveAgent 1]).router_count_per_agent_id
        ∧ (∀ f ∈ (set_agents evacuateFixture 0
            [liveAgent 0, liveAgent 1]).router_count_per_agent_id, m.2 ≤ f.2)
        ∧ (set_agents evacuateFixture 0
            [liveAgent 0, liveAgent 1]).router_count_per_agent_id.find?
              (fun f => f.2 ≤ m.2) = some m
        ∧ q.router_count_per_agent_id
            = (set_agents evacuateFixture 0
                [liveAgent 0, liveAgent 1]).router_count_per_agent_id.map
                (fun f => if f.1 = m.1 then (f.1, f.2 + 1) else f)
        ∧ q.agents = (set_agents evacuateFixture 0 [liveAgent 0, liveAgent 1]).agents
        ∧ q.cache_created_at
            = (set_agents evacuateFixture 0 [liveAgent 0, liveAgent 1]).cache_created_at) :=
  ⟨⟨by decide, by decide, by decide⟩,
    pick_selects_least_busy evacuateFixture 0
      (set_agents evacuateFixture 0 [liveAgent 0, liveAgent 1])
      ("live-agent-0", 1) [("live-agent-1", 0)] (by decide) (by decide) (by decide)⟩

/-- C8: when the cache age exceeds `ROUTER_CACHE_MAX_AGE_SECONDS` (by any
margin `d`), the next `pick` recomputes the per-agent router counts from
the control plane before selecting: on the test scenario — a picker built
when both agents were idle, then two routers added to `live-agent-0`
externally — the pick returns `live-agent-1`, the refreshed state carries
the re-queried counts (2 for the newly busy agent) with the chosen
agent's counter bumped, and the cache timestamp is renewed; the stale
cached counts had been all zero. -/
theorem pick_requeries_after_cache_expiry (t0 d : Nat)
    (hexp : ROUTER_CACHE_MAX_AGE_SECONDS < d) :
    pick busyFixture (t0 + d) (set_agents twoLiveFixture t0 [liveAgent 0, liveAgent 1])
      = some ("live-agent-1",
          { agents := [liveAgent 0, liveAgent 1]
            router_count_per_agent_id := [("live-agent-0", 2), ("live-agent-1", 1)]
            cache_created_at := t0 + d })
    ∧ computeRouterCounts busyFixture [liveAgent 0, liveAgent 1]
        = [("live-agent-0", 2), ("live-agent-1", 0)]
    ∧ (set_agents twoLiveFixture t0 [liveAgent 0, liveAgent 1]).router_count_per_agent_id
        = [("live-agent-0", 0), ("live-agent-1", 0)] := by
  refine ⟨?_, by decide, rfl⟩
  have hr : refreshIfExpired busyFixture (t0 + d)
      (set_agents twoLiveFixture t0 [liveAgent 0, liveAgent 1])
      = { agents := [liveAgent 0, liveAgent 1]
          router_count_per_agent_id := [("live-agent-0", 2), ("live-agent-1", 0)]
          cache_created_at := t0 + d } := by
    rw [refreshIfExpired, if_pos]
    · rfl
    · have h1 : (set_agents twoLiveFixture t0 [liveAgent 0, liveAgent 1]).cache_created_at
          = t0 := rfl
      rw [h1, Nat.add_sub_cancel_left]
      exact hexp
  have hmin : minCountEntry ("live-agent-0", 2) [("live-agent-1", 0)]
      = ("live-agent-1", 0) := by decide
  have hbump : bumpCount [("live-agent-0", 2), ("live-agent-1", 0)] "live-agent-1"
      = [("live-agent-0", 2), ("live-agent-1", 1)] := by decide
  simp only [pick, hr, hmin, hbump]

/-- Witness for C8: a full day elapses between `set_agents` and `pick`. -/
theorem pick_requeries_after_cache_expiry_witness :
    ROUTER_CACHE_MAX_AGE_SECONDS < 86400
    ∧ (pick busyFixture (5 + 86400) (set_agents twoLiveFixture 5 [liveAgent 0, liveAgent 1])
        = some ("live-agent-1",
            { agents := [liveAgent 0, liveAgent 1]
              router_count_per_agent_id := [("live-agent-0", 2), ("live-agent-1", 1)]
              cache_created_at := 5 + 86400 })
      ∧ computeRouterCounts busyFixture [liveAgent 0, liveAgent 1]
          = [("live-agent-0", 2), ("live-agent-1", 0)]
      ∧ (set_agents twoLiveFixture 5 [liveAgent 0, liveAgent 1]).router_count_per_agent_id
          = [("live-agent-0", 0), ("live-agent-1", 0)]) :=
  ⟨by decide, pick_requeries_after_cache_expiry 5 86400 (by decide)⟩

/-- C2: on the namespace-absent session, exactly one remote command (the
namespace listing) is executed and no kill or delete command is issued;
on the namespace-present session with two resident pids, the command
sequence is exactly list-namespaces, list-pids, kill 1234, kill 1235,
list-pids again, delete-namespace, in that order — and every issued
command carries the pseudo-terminal flag and the fixed timeout. -/
theorem delete_router_namespace_traces :
    delete_router_namespace nsAbsentSession "routerid1" = [listNsCmd]
    ∧ delete_router_namespace nsPresentSession "routerid1"
        = [listNsCmd, pidsCmd "qrouter-routerid1", killCmd "1234", killCmd "1235",
           pidsCmd "qrouter-routerid1", deleteNsCmd "qrouter-routerid1"]
    ∧ (delete_router_namespace nsPresentSession "routerid1").all
        (fun c => c.get_pty && c.timeoutSecs = SSH_TIMEOUT_SECONDS)
    ∧ (delete_router_namespace nsAbsentSession "routerid1").all
        (fun c => c.get_pty && c.timeoutSecs = SSH_TIMEOUT_SECONDS) :=
  ⟨by decide, by decide, by decide, by decide⟩

/-- C6: `delete_router_namespace` swallows every timeout: its result is
always the plain command trace of the cleanup body, with no error
component; on the connect-timeout session the body raises a timeout and
the call still returns (with no command issued); on the session whose
commands all time out the body raises a timeout and the call still
returns, having attempted only the namespace listing. -/
theorem delete_router_namespace_swallows_timeouts :
    (∀ (s : SshSession) (router_id : String),
      delete_router_namespace s router_id = (cleanupBody s router_id).1)
    ∧ (cleanupBody connectTimeoutSession "routerid1").2 = some SshError.timeout
    ∧ delete_router_namespace connectTimeoutSession "routerid1" = []
    ∧ (cleanupBody execTimeoutSession "routerid1").2 = some SshError.timeout
    ∧ delete_router_namespace execTimeoutSession "routerid1" = [listNsCmd] :=
  ⟨fun _ _ => rfl, by decide, by decide, by decide, by decide⟩

/-- Every command issued by the kill loop is a kill of some pid. -/
theorem killPids_cmds (s : SshSession) :
    ∀ (pids : List String) (i : Nat) (c : IssuedCmd), c ∈ (killPids s i pids).1 →
      ∃ p, c = killCmd p := by
  intro pids
  induction pids with
  | nil => intro i c hc; simp [killPids] at hc
  | cons p t ih =>
    intro i c hc
    rw [killPids] at hc
    rcases hres : s.exec i (killCmd p).cmd with e | out <;> rw [hres] at hc
    · simp at hc
      exact ⟨p, hc⟩
    · simp at hc
      rcases hc with hc | hc
      · exact ⟨p, hc⟩
      · exact ih (i + 1) c hc

/-- C10: for every session, host and router identifier, the cleanup
addresses exactly the namespace `qrouter-` ++ router id: every remote
command it issues is the namespace listing, the pid listing of
`qrouter-<r>`, a kill of a listed pid, or the deletion of `qrouter-<r>`,
each with the pseudo-terminal flag and the fixed timeout; and the name
searched in the listing output is exactly `qrouter-` ++ router id. -/
theorem cleanup_addresses_qrouter_namespace (s : SshSession) (r : String) :
    nsName r = "qrouter-" ++ r
    ∧ ∀ c ∈ delete_router_namespace s r,
        (c = listNsCmd
          ∨ c = pidsCmd ("qrouter-" ++ r)
          ∨ (∃ p, c = killCmd p)
          ∨ c = deleteNsCmd ("qrouter-" ++ r))
        ∧ c.get_pty = true ∧ c.timeoutSecs = SSH_TIMEOUT_SECONDS := by
  refine ⟨rfl, ?_⟩
  have hshape : ∀ c ∈ delete_router_namespace s r,
      c = listNsCmd ∨ c = pidsCmd ("qrouter-" ++ r)
        ∨ (∃ p, c = killCmd p) ∨ c = deleteNsCmd ("qrouter-" ++ r) := by
    intro c hc
    unfold delete_router_namespace cleanupBody at hc
    split at hc
    · simp at hc
    · split at hc
      · simp at hc
        simp [hc]
      · split at hc
        · split at hc
          · simp at hc
            rcases hc with hc | hc <;> simp [hc, nsName]
          · split at hc
            case _ kills j e heq =>
              simp [List.mem_cons] at hc
              rcases hc with hc | hc | hc
              · simp [hc]
              · simp [hc, nsName]
              · exact Or.inr (Or.inr (Or.inl
                  (killPids_cmds s _ 2 c (by rw [heq]; exact hc))))
            case _ kills j heq =>
              split at hc
              · simp [List.mem_cons, List.mem_append] at hc
                rcases hc with hc | hc | hc | hc
                · simp [hc]
                · simp [hc, nsName]
                · exact Or.inr (Or.inr (Or.inl
                    (killPids_cmds s _ 2 c (by rw [heq]; exact hc))))
                · simp [hc, nsName]
              · split at hc
                · simp [List.mem_cons, List.mem_append] at hc
                  rcases hc with hc | hc | hc | hc | hc
                  · simp [hc]
                  · simp [hc, nsName]
                  · exact Or.inr (Or.inr (Or.inl
                      (killPids_cmds s _ 2 c (by rw [heq]; exact hc))))
                  · simp [hc, nsName]
                  · simp [hc, nsName]
                · simp [List.mem_cons, List.mem_append] at hc
                  rcases hc with hc | hc | hc | hc | hc
                  · simp [hc]
                  · simp [hc, nsName]
                  · exact Or.inr (Or.inr (Or.inl
                      (killPids_cmds s _ 2 c (by rw [heq]; exact hc))))
                  · simp [hc, nsName]
                  · simp [hc, nsName]
        · simp at hc
          simp [hc]
  intro c hc
  refine ⟨hshape c hc, ?_, ?_⟩
  · rcases hshape c hc with h | h | ⟨p, h⟩ | h <;>
      simp [h, listNsCmd, pidsCmd, killCmd, deleteNsCmd]
  · rcases hshape c hc with h | h | ⟨p, h⟩ | h <;>
      simp [h, listNsCmd, pidsCmd, killCmd, deleteNsCmd]

/-- Witness for C10: the pid-listing command of the namespace-present
session is in the trace and carries the exact `qrouter-routerid1` name,
the pseudo-terminal flag and the fixed timeout. -/
theorem cleanup_addresses_qrouter_namespace_witness :
    pidsCmd ("qrouter-" ++ "routerid1")
        ∈ delete_router_namespace nsPresentSession "routerid1"
    ∧ ((pidsCmd ("qrouter-" ++ "routerid1") = listNsCmd
        ∨ pidsCmd ("qrouter-" ++ "routerid1") = pidsCmd ("qrouter-" ++ "routerid1")
        ∨ (∃ p, pidsCmd ("qrouter-" ++ "routerid1") = killCmd p)
        ∨ pidsCmd ("qrouter-" ++ "routerid1") = deleteNsCmd ("qrouter-" ++ "routerid1"))
      ∧ (pidsCmd ("qrouter-" ++ "routerid1")).get_pty = true
      ∧ (pidsCmd ("qrouter-" ++ "routerid1")).timeoutSecs = SSH_TIMEOUT_SECONDS) :=
  ⟨by decide,
    (cleanup_addresses_qrouter_namespace nsPresentSession "routerid1").2
      (pidsCmd ("qrouter-" ++ "routerid1")) (by decide)⟩

end HaTool
